import Mathlib

/-
  Verification of the betterrewards orchestration layer (src/src/index.ts).

  The definitions below are a shallow embedding of the MicrosoftRewardsBot
  class: the per-account task loop (runTasks), the allowed-window scheduler
  helper (computeWaitForAllowedWindow), the job-state skip logic
  (shouldSkipAccount / persistAccountCompletion), the cluster primary event
  handling (runMaster), the crash-recovery exit hook (gracefulExit) and the
  global standby flag (engageGlobalStandby).  JavaScript numbers that can
  become Infinity are modelled by the JsNumber type; fallible flows by
  Except; the mutable class fields by explicit state records.
-/

/- ===== JavaScript string and number primitives used by the source ===== -/

/-- Model of the JavaScript string split on a single separator character,
as used by computeWaitForAllowedWindow via w.split and start.split. -/
def splitOnChar (sep : Char) : List Char → List (List Char)
  | [] => [[]]
  | c :: rest =>
    let r := splitOnChar sep rest
    if c == sep then [] :: r
    else
      match r with
      | h :: t => (c :: h) :: t
      | [] => [[c]]

/-- Longest decimal digit prefix of a character list, or none when there is
no digit, mirroring the digit scan inside JavaScript parseInt. -/
def jsDigits (cs : List Char) : Option Nat :=
  let ds := cs.takeWhile Char.isDigit
  if ds.isEmpty then none
  else some (ds.foldl (fun a c => a * 10 + (c.toNat - 48)) 0)

/-- Model of JavaScript parseInt with radix 10: skip leading whitespace,
accept an optional sign, read the digit prefix; none stands for NaN. -/
def jsParseInt (cs : List Char) : Option Int :=
  let cs2 := cs.dropWhile (fun c => c == ' ' || c == '\t' || c == '\n' || c == '\r')
  match cs2 with
  | '-' :: t => (jsDigits t).map (fun n => -(n : Int))
  | '+' :: t => (jsDigits t).map (fun n => (n : Int))
  | t => (jsDigits t).map (fun n => (n : Int))

/-- Model of the JavaScript s.substring(0, n) used to truncate ban reasons. -/
def jsSubstring0 (n : Nat) (s : String) : String :=
  String.mk (s.data.take n)

/-- A JavaScript number that is either a natural value or positive Infinity,
as produced by the expression Math.min(a or Infinity, b or Infinity). -/
inductive JsNumber where
  | num (n : Nat)
  | posInf
  deriving DecidableEq, Repr

/-- Math.min on JsNumber values. -/
def jsMin : JsNumber → JsNumber → JsNumber
  | .num a, .num b => .num (Nat.min a b)
  | .num a, .posInf => .num a
  | .posInf, b => b

/-- Addition of a natural value to a JsNumber; Infinity absorbs. -/
def jsAdd : JsNumber → Nat → JsNumber
  | .num a, b => .num (a + b)
  | .posInf, _ => .posInf

/-- The JavaScript idiom (n or Infinity): 0 is falsy and becomes Infinity. -/
def jsOrInf (n : Nat) : JsNumber :=
  if n = 0 then JsNumber.posInf else JsNumber.num n

/- ===== computeWaitForAllowedWindow (index.ts lines 803-846) ===== -/

/-- Parsing and validation of one allowed-window entry, following lines
808-825 of index.ts: split on the dash, require both pieces non-empty,
split each on the colon into exactly two parseInt results, reject NaN and
out-of-range hours or minutes; the result is (startMins, endMins). -/
def parseWindow (w : String) : Option (Nat × Nat) :=
  let parts := splitOnChar '-' w.data
  let startCs := parts.getD 0 []
  let endCs := parts.getD 1 []
  if startCs.isEmpty || endCs.isEmpty then none
  else
    let pStart := splitOnChar ':' startCs
    let pEnd := splitOnChar ':' endCs
    if pStart.length != 2 || pEnd.length != 2 then none
    else
      match jsParseInt (pStart.getD 0 []), jsParseInt (pStart.getD 1 []),
            jsParseInt (pEnd.getD 0 []), jsParseInt (pEnd.getD 1 []) with
      | some sh, some sm, some eh, some em =>
        if sh < 0 || 23 < sh || eh < 0 || 23 < eh then none
        else if sm < 0 || 59 < sm || em < 0 || 59 < em then none
        else some ((sh * 60 + sm).toNat, (eh * 60 + em).toNat)
      | _, _, _, _ => none

/-- Loop body of computeWaitForAllowedWindow (lines 808-845): walk the
window list, return 0 milliseconds as soon as the current minute-of-day is
inside a window, otherwise accumulate the minimum candidate start; at the
end convert the candidate to milliseconds, or return 0 when none exists. -/
def cwfawGo (minsNow : Nat) : List String → Option Nat → Int
  | [], nextStartMins =>
    match nextStartMins with
    | some ns =>
      let targetTodayMs : Int := ((ns : Int) - (minsNow : Int)) * 60000
      if 0 < targetTodayMs then targetTodayMs
      else (24 * 60 + (ns : Int) - (minsNow : Int)) * 60000
    | none => 0
  | w :: rest, nextStartMins =>
    match parseWindow w with
    | none => cwfawGo minsNow rest nextStartMins
    | some (s, e) =>
      if s ≤ e then
        if s ≤ minsNow && minsNow ≤ e then 0
        else if minsNow < s then
          cwfawGo minsNow rest (some (Nat.min (nextStartMins.getD s) s))
        else cwfawGo minsNow rest nextStartMins
      else
        if minsNow ≥ s || minsNow ≤ e then 0
        else cwfawGo minsNow rest (some (Nat.min (nextStartMins.getD s) s))

/-- computeWaitForAllowedWindow: milliseconds to wait until inside one of
the allowed windows; minsNow is the minute-of-day the source reads from
the Date object. -/
def computeWaitForAllowedWindow (minsNow : Nat) (windows : List String) : Int :=
  cwfawGo minsNow windows none

/-- Formalisation of the claim wording for being inside at least one
allowed window: a same-day window contains the time when start ≤ now ≤ end,
and a midnight-crossing window when now ≥ start or now ≤ end. -/
def specInsideAnyWindow (minsNow : Nat) (windows : List String) : Bool :=
  windows.any (fun w =>
    match parseWindow w with
    | some (s, e) =>
      if s ≤ e then decide (s ≤ minsNow) && decide (minsNow ≤ e)
      else decide (minsNow ≥ s) || decide (minsNow ≤ e)
    | none => false)

/- ===== Configuration model (src/interface/Config.ts excerpt) ===== -/

/-- Humanization settings relevant to the orchestration layer. -/
structure ConfigHumanization where
  stopOnBan : Option Bool := none
  immediateBanAlert : Option Bool := none
  allowedWindows : Option (List String) := none
  deriving DecidableEq, Repr

/-- Job-state persistence settings. -/
structure ConfigJobState where
  enabled : Option Bool := none
  skipCompletedAccounts : Option Bool := none
  autoResetOnComplete : Option Bool := none
  deriving DecidableEq, Repr

/-- Crash-recovery settings. -/
structure ConfigCrashRecovery where
  autoRestart : Option Bool := none
  maxRestarts : Option Nat := none
  backoffBaseMs : Option Nat := none
  restartFailedWorker : Option Bool := none
  restartFailedWorkerAttempts : Option Nat := none
  deriving DecidableEq, Repr

/-- The slice of the configuration object read by the orchestration code. -/
structure Config where
  parallel : Bool
  clusters : Nat
  passesPerRun : Option Nat := none
  dryRun : Option Bool := none
  humanization : Option ConfigHumanization := none
  jobState : Option ConfigJobState := none
  crashRecovery : Option ConfigCrashRecovery := none
  deriving DecidableEq, Repr

/-- The check config.humanization.stopOnBan === true from line 521. -/
def Config.stopOnBanFlag (c : Config) : Bool :=
  (c.humanization.bind (fun h => h.stopOnBan)) == some true

/- ===== Job state store ===== -/

/-- Info recorded with a completion marker (argument of markAccountComplete
at lines 141-146 of index.ts). -/
structure JobRecord where
  runId : String
  totalCollected : Nat
  banned : Bool
  errors : Nat
  deriving DecidableEq, Repr

/-- Modelled from the spec: the JobState store of
src/util/state/JobState.ts is not part of the excerpted source.  Section
4.1 of the design describes it as a per-(account, day) completion-marker
map with last-write-wins upsert and at most one record per key; it is
modelled here as an association list keyed by (email, dayKey). -/
structure JobStore where
  records : List ((String × String) × JobRecord)
  deriving DecidableEq, Repr

/-- Modelled from the spec: markAccountComplete is an idempotent upsert,
last write wins. -/
def JobStore.markAccountComplete (st : JobStore) (email day : String)
    (info : JobRecord) : JobStore :=
  ⟨((email, day), info) :: st.records.filter (fun r => r.1 != (email, day))⟩

/-- Modelled from the spec: isAccountComplete is true iff a completion
record exists for the composite key. -/
def JobStore.isAccountComplete (st : JobStore) (email day : String) : Bool :=
  st.records.any (fun r => r.1 == (email, day))

/-- The REWARDS_DISABLE_ACCOUNT_SKIP truthiness check (lines 149-154):
the raw value 1, or true / yes in any case, enables the override. -/
def isAccountSkipOverride (envValue : Option String) : Bool :=
  match envValue with
  | none => false
  | some value =>
    if value = "" then false
    else
      let lower := String.mk (value.data.map Char.toLower)
      value == "1" || lower == "true" || lower == "yes"

/-- shouldSkipAccount (lines 128-134): no store, skip disabled, more than
one pass, or the environment override each force false; otherwise defer to
the completion record. -/
def shouldSkipAccount (cfg : Config) (store : Option JobStore)
    (envValue : Option String) (email day : String) : Bool :=
  match store with
  | none => false
  | some st =>
    if (cfg.jobState.bind (fun j => j.skipCompletedAccounts)) = some false then false
    else if 1 < cfg.passesPerRun.getD 1 then false
    else if isAccountSkipOverride envValue then false
    else st.isAccountComplete email day

/- ===== Per-account summaries and task flows ===== -/

/-- Ban flag carried through one account run (line 565). -/
structure BanFlag where
  status : Bool
  reason : String
  deriving DecidableEq, Repr

/-- The per-account summary record built at lines 695-705 of index.ts. -/
structure AccountSummary where
  email : String
  durationMs : Nat
  desktopCollected : Nat
  mobileCollected : Nat
  totalCollected : Nat
  initialTotal : JsNumber
  endTotal : JsNumber
  errors : List String
  banned : BanFlag
  deriving DecidableEq, Repr

/-- persistAccountCompletion (lines 136-147): guarded exactly like the
skip check, then an upsert of the completion record. -/
def persistAccountCompletion (cfg : Config) (store : Option JobStore)
    (envValue : Option String) (runId email day : String)
    (summary : AccountSummary) : Option JobStore :=
  match store with
  | none => none
  | some st =>
    if (cfg.jobState.bind (fun j => j.skipCompletedAccounts)) = some false then some st
    else if 1 < cfg.passesPerRun.getD 1 then some st
    else if isAccountSkipOverride envValue then some st
    else some (st.markAccountComplete email day
      ⟨runId, summary.totalCollected, summary.banned.status, summary.errors.length⟩)

/-- A JavaScript error thrown by a browser flow; banSignature carries the
text shape a ban classifier may recognise. -/
structure JsError where
  msg : String
  banSignature : Option String
  deriving DecidableEq, Repr

/-- Output of the external detectBanReason classifier. -/
structure BanResult where
  status : Bool
  reason : String
  deriving DecidableEq, Repr

/-- The ban classifier is the external BanDetector module; the embedding is
parameterised over it. -/
abbrev BanClassifier := JsError → BanResult

/-- Result of a successful desktop or mobile flow (external contract:
initialPoints and collectedPoints). -/
structure FlowRes where
  initialPoints : Nat
  collectedPoints : Nat
  deriving DecidableEq, Repr

/-- One flow execution either returns its points or throws. -/
abbrev FlowRun := Except JsError FlowRes

/-- Modelled from the spec: formatDetailedError of
src/util/core/Utils.ts is not part of the excerpted source; the spec only
requires that a caught flow exception is recorded as an account-level
error string tagged with its platform. -/
def formatFullError (tag : String) (e : JsError) : String :=
  tag ++ ": " ++ e.msg

/-- Which flows an account run invoked, for stating non-invocation. -/
inductive FlowKind where
  | desktop
  | mobile
  deriving DecidableEq, Repr

/-- The catch handler shared by all four flow-call sites (for example
lines 598-608): classify the error, set the ban flag on a positive match
with the reason truncated to 200 characters, and push the error string. -/
def recordFlowFailure (detect : BanClassifier) (tag : String) (e : JsError)
    (b : BanFlag) (errors : List String) : BanFlag × List String :=
  let bd := detect e
  let b2 := if bd.status then BanFlag.mk true (jsSubstring0 200 bd.reason) else b
  (b2, errors ++ [formatFullError tag e])

/-- Result of processing one account: its summary and the flows invoked. -/
structure StepResult where
  summary : AccountSummary
  invoked : List FlowKind
  deriving DecidableEq, Repr

/-- The total / initial / end computation at lines 683-705: parallel mode
takes the minimum of the two initial readings with 0 coerced to Infinity;
sequential mode takes the first truthy reading. -/
def finishSummary (cfg : Config) (email : String) (durationMs : Nat)
    (dInit dColl mInit mColl : Nat) (errors : List String) (banned : BanFlag)
    (invoked : List FlowKind) : StepResult :=
  let totalCollected := dColl + mColl
  let initialTotal :=
    if cfg.parallel then jsMin (jsOrInf dInit) (jsOrInf mInit)
    else JsNumber.num (if dInit ≠ 0 then dInit else if mInit ≠ 0 then mInit else 0)
  let endTotal := jsAdd initialTotal totalCollected
  { summary := { email := email, durationMs := durationMs, desktopCollected := dColl,
                 mobileCollected := mColl, totalCollected := totalCollected,
                 initialTotal := initialTotal, endTotal := endTotal,
                 errors := errors, banned := banned }
    invoked := invoked }

/-- The per-account body of runTasks (lines 559-705): the dry-run branch
appends an all-zero summary without touching the flows; parallel mode runs
both flows with independent catch handlers; sequential mode runs desktop
first and skips mobile when a ban or compromised condition was raised. -/
def runAccount (cfg : Config) (detect : BanClassifier) (email : String)
    (durationMs : Nat) (desktopRun mobileRun : FlowRun)
    (compromisedAfterDesktop : Bool) : StepResult :=
  if cfg.dryRun.getD false then
    { summary := { email := email, durationMs := 0, desktopCollected := 0,
                   mobileCollected := 0, totalCollected := 0,
                   initialTotal := JsNumber.num 0, endTotal := JsNumber.num 0,
                   errors := [], banned := ⟨false, ""⟩ }
      invoked := [] }
  else if cfg.parallel then
    let s0 : BanFlag × List String := (⟨false, ""⟩, [])
    let d := match desktopRun with
      | .ok r => (r.initialPoints, r.collectedPoints, s0)
      | .error e => (0, 0, recordFlowFailure detect "desktop" e s0.1 s0.2)
    let m := match mobileRun with
      | .ok r => (r.initialPoints, r.collectedPoints, d.2.2)
      | .error e => (0, 0, recordFlowFailure detect "mobile" e d.2.2.1 d.2.2.2)
    finishSummary cfg email durationMs d.1 d.2.1 m.1 m.2.1 m.2.2.2 m.2.2.1
      [FlowKind.desktop, FlowKind.mobile]
  else
    let s0 : BanFlag × List String := (⟨false, ""⟩, [])
    let d := match desktopRun with
      | .ok r => (r.initialPoints, r.collectedPoints, s0)
      | .error e => (0, 0, recordFlowFailure detect "desktop" e s0.1 s0.2)
    if !d.2.2.1.status && !compromisedAfterDesktop then
      let m := match mobileRun with
        | .ok r => (r.initialPoints, r.collectedPoints, d.2.2)
        | .error e => (0, 0, recordFlowFailure detect "mobile" e d.2.2.1 d.2.2.2)
      finishSummary cfg email durationMs d.1 d.2.1 m.1 m.2.1 m.2.2.2 m.2.2.1
        [FlowKind.desktop, FlowKind.mobile]
    else
      finishSummary cfg email durationMs d.1 d.2.1 0 0 d.2.2.2 d.2.2.1
        [FlowKind.desktop]

/- ===== The account loop of runTasks (lines 491-718) ===== -/

/-- The global standby flag field of the bot (line 69). -/
structure StandbyState where
  active : Bool
  reason : Option String
  deriving DecidableEq, Repr

/-- An account as far as the orchestration loop consumes it. -/
structure Account where
  email : String
  deriving DecidableEq, Repr

/-- The mutable bot state threaded through the account loop: the standby
flag, the bannedTriggered marker, the summary list, the job-state store
and a log of which flows were invoked for which account. -/
structure LoopState where
  globalStandby : StandbyState
  bannedTriggered : Option (String × String)
  summaries : List AccountSummary
  store : Option JobStore
  invocations : List (String × FlowKind)
  deriving DecidableEq, Repr

/-- External world of one run: what each flow would do for each account
(the browser flows are external collaborators). -/
structure FlowEnv where
  desktopRun : String → FlowRun
  mobileRun : String → FlowRun
  compromisedAfterDesktop : String → Bool
  durationMs : String → Nat

/-- The for-loop at lines 514-718: break on an active global standby,
break on stopOnBan after a ban, skip completed accounts, otherwise process
the account, persist completion, and on a banned summary set
bannedTriggered and activate the global standby flag (lines 710-715). -/
def runTasksLoop (cfg : Config) (detect : BanClassifier) (env : FlowEnv)
    (osEnv : Option String) (runId day : String) :
    List Account → LoopState → LoopState
  | [], st => st
  | a :: rest, st =>
    if st.globalStandby.active then st
    else if cfg.stopOnBanFlag && st.bannedTriggered.isSome then st
    else if shouldSkipAccount cfg st.store osEnv a.email day then
      runTasksLoop cfg detect env osEnv runId day rest st
    else
      let res := runAccount cfg detect a.email (env.durationMs a.email)
        (env.desktopRun a.email) (env.mobileRun a.email)
        (env.compromisedAfterDesktop a.email)
      let store2 := persistAccountCompletion cfg st.store osEnv runId a.email day res.summary
      let banned := res.summary.banned
      let st2 : LoopState :=
        { globalStandby :=
            if banned.status then ⟨true, some ("banned:" ++ banned.reason)⟩
            else st.globalStandby
          bannedTriggered :=
            if banned.status then some (a.email, banned.reason) else st.bannedTriggered
          summaries := st.summaries ++ [res.summary]
          store := store2
          invocations := st.invocations ++ res.invoked.map (fun k => (a.email, k)) }
      runTasksLoop cfg detect env osEnv runId day rest st2

/-- resetAllJobStates (lines 195-209) deletes every per-day state file. -/
def resetAllJobStates (store : Option JobStore) : Option JobStore :=
  store.map (fun _ => ⟨[]⟩)

/-- runTasks (lines 491-718): when every account is already complete on a
first single-pass run, ask whether to reset (promptAnswer models the
promptResetJobState outcome, which defaults to keeping the state) and
either reset or return; on later passes of a multi-pass run reset the
state; then run the account loop. -/
def runTasks (cfg : Config) (detect : BanClassifier) (env : FlowEnv)
    (osEnv : Option String) (runId day : String) (promptAnswer : Bool)
    (accounts : List Account) (st : LoopState)
    (currentPass totalPasses : Nat) : LoopState :=
  let allCompleted :=
    accounts.all (fun a => shouldSkipAccount cfg st.store osEnv a.email day)
  if allCompleted && !accounts.isEmpty && currentPass == 1 && totalPasses == 1 then
    if promptAnswer then
      runTasksLoop cfg detect env osEnv runId day accounts
        { st with store := resetAllJobStates st.store }
    else st
  else if allCompleted && !accounts.isEmpty && 1 < currentPass then
    runTasksLoop cfg detect env osEnv runId day accounts
      { st with store := resetAllJobStates st.store }
  else
    runTasksLoop cfg detect env osEnv runId day accounts st

/- ===== engageGlobalStandby (lines 944-956) ===== -/

/-- engageGlobalStandby: return the new standby state and whether the
standby alert was sent; an already active flag short-circuits. -/
def engageGlobalStandby (s : StandbyState) (reason : String) :
    StandbyState × Bool :=
  if s.active then (s, false)
  else ({ active := true, reason := some reason }, true)

/- ===== gracefulExit (lines 1135-1149) ===== -/

/-- What the exit hook does: schedule a restart after a delay, or exit the
process with a code. -/
inductive ExitAction where
  | scheduleRestart (delayMs : Nat)
  | exitProcess (code : Nat)
  deriving DecidableEq, Repr

/-- gracefulExit: with crashRecovery.autoRestart on a non-zero code and
restart budget left, schedule a restart after backoffBaseMs (default 2000)
times the attempt number (restarts so far plus one); otherwise exit. -/
def gracefulExit (cfg : Config) (restartsSoFar : Nat) (code : Nat) : ExitAction :=
  match cfg.crashRecovery with
  | some cr =>
    if cr.autoRestart.getD false && code != 0 then
      let maxR := cr.maxRestarts.getD 2
      if restartsSoFar < maxR then
        ExitAction.scheduleRestart ((cr.backoffBaseMs.getD 2000) * (restartsSoFar + 1))
      else ExitAction.exitProcess code
    else ExitAction.exitProcess code
  | none => ExitAction.exitProcess code

/- ===== runMaster (lines 346-449) ===== -/

/-- Association-list lookup keyed by worker id. -/
def alistLookup {α : Type} (l : List (Nat × α)) (k : Nat) : Option α :=
  match l with
  | [] => none
  | (k2, v) :: rest => if k2 = k then some v else alistLookup rest k

/-- Association-list upsert keyed by worker id. -/
def alistSet {α : Type} (l : List (Nat × α)) (k : Nat) (v : α) : List (Nat × α) :=
  match l with
  | [] => [(k, v)]
  | (k2, v2) :: rest => if k2 = k then (k, v) :: rest else (k2, v2) :: alistSet rest k v

/-- Association-list delete keyed by worker id. -/
def alistRemove {α : Type} (l : List (Nat × α)) (k : Nat) : List (Nat × α) :=
  l.filter (fun p => p.1 != k)

/-- Fuel-driven contiguous chunking of a list. -/
def chunkGo {α : Type} : Nat → List α → Nat → List (List α)
  | 0, _, _ => []
  | _, [], _ => []
  | fuel + 1, xs, size => xs.take size :: chunkGo fuel (xs.drop size) size

/-- Modelled from the spec: Util.chunkArray of src/util/core/Utils.ts is
not part of the excerpted source; section 4.4 of the design says the
primary partitions the account list into contiguous chunks, one chunk per
worker. -/
def chunkArray {α : Type} (xs : List α) (n : Nat) : List (List α) :=
  if n = 0 then []
  else chunkGo xs.length xs ((xs.length + n - 1) / n)

/-- The primary process state: the next cluster worker id, which spawned
workers have not exited, the per-worker-object restart attempt counters,
the workerChunkMap, the activeWorkers counter, the log of chunk messages
sent to workers, and whether finishRun was triggered. -/
structure MasterState where
  nextId : Nat
  live : List Nat
  restartAttempts : List (Nat × Nat)
  chunkMap : List (Nat × List Account)
  activeWorkers : Int
  sentChunks : List (Nat × List Account)
  finished : Bool
  deriving DecidableEq, Repr

/-- Primary startup (lines 359-407): spawn min(clusters, accounts) workers,
record and send each one its contiguous chunk. -/
def runMasterInit (cfg : Config) (accounts : List Account) : MasterState :=
  let workerCount := Nat.min cfg.clusters accounts.length
  let chunks := chunkArray accounts workerCount
  let ids := (List.range workerCount).map (fun i => i + 1)
  { nextId := workerCount + 1
    live := ids
    restartAttempts := []
    chunkMap := ids.map (fun i => (i, chunks.getD (i - 1) []))
    activeWorkers := (workerCount : Int)
    sentChunks := ids.map (fun i => (i, chunks.getD (i - 1) []))
    finished := false }

/-- The cluster exit handler (lines 409-447): decrement activeWorkers; on a
non-zero code with restartFailedWorker enabled and the exiting worker
object under its attempt budget, bump that counter, fork a replacement and
resend the original chunk recorded for the exiting worker; finally, when
the activeWorkers counter reaches zero, trigger finishRun. -/
def onWorkerExit (cfg : Config) (st : MasterState) (wid : Nat) (code : Int) :
    MasterState :=
  let st1 := { st with activeWorkers := st.activeWorkers - 1,
                       live := st.live.filter (fun i => i != wid) }
  let st2 :=
    match cfg.crashRecovery with
    | some cr =>
      if cr.restartFailedWorker.getD false && code != 0 && wid != 0 then
        let attempts := (alistLookup st1.restartAttempts wid).getD 0
        if attempts < cr.restartFailedWorkerAttempts.getD 1 then
          let stA := { st1 with restartAttempts := alistSet st1.restartAttempts wid (attempts + 1) }
          let newId := stA.nextId
          let originalChunk := alistLookup stA.chunkMap wid
          let stB := { stA with nextId := newId + 1, live := stA.live ++ [newId] }
          match originalChunk with
          | some chunk =>
            if !chunk.isEmpty && newId != 0 then
              { stB with
                sentChunks := stB.sentChunks ++ [(newId, chunk)]
                chunkMap := alistRemove (alistSet stB.chunkMap newId chunk) wid }
            else stB
          | none => stB
        else st1
      else st1
    | none => st1
  if st2.activeWorkers == 0 then { st2 with finished := true } else st2

/- ===== Shared lemmas ===== -/

/-- A skip check against an empty store is always false: every guard in
shouldSkipAccount returns false and no completion record can match. -/
theorem shouldSkip_emptyStore (cfg : Config) (osEnv : Option String)
    (em day : String) : shouldSkipAccount cfg (some ⟨[]⟩) osEnv em day = false := by
  simp only [shouldSkipAccount]
  split_ifs <;> rfl

/-- The guards of shouldSkipAccount all pass and a record exists, so the
skip check answers true. -/
theorem shouldSkip_of_complete (cfg : Config) (stJ : JobStore)
    (osEnv : Option String) (em day : String)
    (h1 : (cfg.jobState.bind fun j => j.skipCompletedAccounts) ≠ some false)
    (h2 : cfg.passesPerRun.getD 1 ≤ 1)
    (h3 : isAccountSkipOverride osEnv = false)
    (h4 : stJ.isAccountComplete em day = true) :
    shouldSkipAccount cfg (some stJ) osEnv em day = true := by
  simp only [shouldSkipAccount]
  rw [if_neg h1, if_neg (by omega), if_neg (by simp [h3])]
  exact h4

/-- Upserting a completion record makes the key complete. -/
theorem JobStore.mark_isComplete (st : JobStore) (em day : String)
    (info : JobRecord) :
    (st.markAccountComplete em day info).isAccountComplete em day = true := by
  simp [JobStore.markAccountComplete, JobStore.isAccountComplete]

/- ===== Concrete fixtures used by witnesses and counterexamples ===== -/

/-- A ban classifier for concrete runs: an error carrying a ban signature
is classified as a ban with that signature as reason. -/
def testDetect : BanClassifier := fun e =>
  match e.banSignature with
  | some r => ⟨true, r⟩
  | none => ⟨false, ""⟩

/-- Default-style sequential single-cluster configuration. -/
def seqCfg : Config := { parallel := false, clusters := 1 }

/-- Default-style parallel single-cluster configuration. -/
def parCfg : Config := { parallel := true, clusters := 1 }

/-- Configuration with two passes per run. -/
def cfgPasses2 : Config :=
  { parallel := false
    clusters := 1
    passesPerRun := some 2 }

/-- Dry-run configuration. -/
def dryCfg : Config :=
  { parallel := false
    clusters := 1
    dryRun := some true }

/-- A flow environment whose desktop flow always throws a ban-signature
error and whose mobile flow would succeed. -/
def banEnv : FlowEnv :=
  { desktopRun := fun _ => Except.error ⟨ "Account suspended", some "suspended" ⟩
    mobileRun := fun _ => Except.ok ⟨55, 7⟩
    compromisedAfterDesktop := fun _ => false
    durationMs := fun _ => 1000 }

/-- A flow environment where both flows succeed. -/
def okEnv : FlowEnv :=
  { desktopRun := fun _ => Except.ok ⟨100, 10⟩
    mobileRun := fun _ => Except.ok ⟨95, 5⟩
    compromisedAfterDesktop := fun _ => false
    durationMs := fun _ => 1000 }

/-- Fresh run state: no standby, no ban, no summaries, empty job store. -/
def emptyLoopState : LoopState := ⟨⟨false, none⟩, none, [], some ⟨[]⟩, []⟩

/-- The C1 scenario run: two accounts, sequential, first desktop throws a
ban-classified error, stopOnBan left at its default. -/
def c1Run : LoopState :=
  runTasks seqCfg testDetect banEnv none "run1" "2026-10-12" false
    [⟨ "one@x" ⟩, ⟨ "two@x" ⟩] emptyLoopState 1 1

/-- A store with one completion record for a@x on 2026-10-12. -/
def storeDone : JobStore := ⟨[(( "a@x", "2026-10-12" ), ⟨ "r1", 30, false, 0 ⟩)]⟩

/-- Cluster configuration with worker crash recovery enabled at the
default attempt budget. -/
def crCfg : Config :=
  { parallel := false
    clusters := 2
    crashRecovery := some { restartFailedWorker := some true } }

/-- The single account handled by the crashing worker slot. -/
def mAcct : Account := ⟨ "w@x" ⟩

/-- Primary state after startup with one account. -/
def mSt0 : MasterState := runMasterInit crCfg [mAcct]

/-- Primary state after worker 1 exits with code 1 (first crash). -/
def mSt1 : MasterState := onWorkerExit crCfg mSt0 1 1

/-- Primary state after the replacement worker 2 also exits with code 1. -/
def mSt2 : MasterState := onWorkerExit crCfg mSt1 2 1

/-- A crash-recovery configuration with autoRestart enabled. -/
def autoCr : ConfigCrashRecovery := { autoRestart := some true }

/-- Configuration carrying autoCr. -/
def autoCrCfg : Config :=
  { parallel := false
    clusters := 1
    crashRecovery := some autoCr }

/-- A non-ban flow error. -/
def exErr : JsError := ⟨ "net::ERR_TIMED_OUT", none ⟩

/- ===== Claim theorems ===== -/

/-- C2: computeWaitForAllowedWindow returns 0 at 07:00 for the single
window 06:00-06:30 even though 07:00 lies inside no window, because a
same-day window that already ended contributes no candidate start; the
claim (and the function doc example) require a positive wait until the
next window start instead. -/
theorem cwfaw_zero_although_outside_every_window :
    computeWaitForAllowedWindow 420 [ "06:00-06:30" ] = 0 ∧
    specInsideAnyWindow 420 [ "06:00-06:30" ] = false := ⟨rfl, rfl⟩

/-- C1 counterexample: in the two-account sequential ban scenario the
second account is not processed at all — it gets no summary and none of
its flows is invoked — refuting the claimed "second account is still
processed in full". -/
theorem c1_second_account_not_processed :
    c1Run.summaries.map (fun s => s.email) = [ "one@x" ] ∧
    c1Run.invocations.any (fun p => p.1 == "two@x") = false := ⟨rfl, rfl⟩

/-- C3 counterexample: in parallel mode a desktop initialPoints reading of
0 with a mobile reading of 95 yields initialTotal 95, not the claimed
minimum of the two readings (which is 0): a zero reading is coerced to
Infinity by the (value or Infinity) idiom before Math.min. -/
theorem c3_initialTotal_not_min_on_zero_reading :
    (runAccount parCfg testDetect "a@x" 1000 (Except.ok ⟨0, 10⟩)
        (Except.ok ⟨95, 5⟩) false).summary.initialTotal = JsNumber.num 95 ∧
    JsNumber.num 95 ≠ JsNumber.num (Nat.min 0 95) := ⟨rfl, by decide⟩

/-- C5: the respawn-attempt cap is not enforced per worker slot: with the
default budget of 1 attempt, a slot whose worker crashes and whose
replacement crashes again gets a second replacement (three chunk sends in
total), because the attempt counter is stored on the dead worker object
and every replacement starts at zero; each (re)send does carry exactly the
original account chunk. -/
theorem c5_respawn_cap_not_per_slot :
    mSt2.sentChunks = [(1, [mAcct]), (2, [mAcct]), (3, [mAcct])] ∧
    crCfg.crashRecovery.map (fun c => c.restartFailedWorkerAttempts.getD 1)
      = some 1 := ⟨rfl, rfl⟩

/-- C6: after the only worker crashes and is respawned, the primary has
already triggered finishRun (finished = true) while the replacement worker
2 is still live: the activeWorkers counter is decremented on every exit
but never incremented for a respawned worker, so the run is finalized
while a spawned worker is still running. -/
theorem c6_finalize_while_respawned_worker_live :
    mSt1.finished = true ∧ mSt1.live = [2] := ⟨rfl, rfl⟩

/-- C10: engageGlobalStandby is idempotent and never clears the flag: an
active flag is returned unchanged with no alert sent; an inactive flag
becomes active with the given reason and one alert; the resulting flag is
always active. -/
theorem c10_engageGlobalStandby_idempotent (s : StandbyState) (r : String) :
    (s.active = true → engageGlobalStandby s r = (s, false)) ∧
    (s.active = false →
      engageGlobalStandby s r = (⟨true, some r⟩, true)) ∧
    (engageGlobalStandby s r).1.active = true := by
  unfold engageGlobalStandby
  cases hs : s.active <;> simp [hs]

/-- C10 witness: concrete idempotence and activation instances. -/
theorem c10_witness :
    engageGlobalStandby ⟨true, some "y"⟩ "x" = (⟨true, some "y"⟩, false) ∧
    engageGlobalStandby ⟨false, none⟩ "x" = (⟨true, some "x"⟩, true) := by
  exact ⟨(c10_engageGlobalStandby_idempotent ⟨true, some "y"⟩ "x").1 rfl,
         (c10_engageGlobalStandby_idempotent ⟨false, none⟩ "x").2.1 rfl⟩

/-- C7: with crashRecovery.autoRestart enabled, a non-zero exit code and
restart budget left schedules a restart after backoffBaseMs (default 2000)
times the attempt number (restarts so far plus one, so starting at 1), and
once the performed restarts reach maxRestarts (default 2) no restart is
scheduled and the process exits with the code. -/
theorem c7_gracefulExit_linear_backoff (cfg : Config) (cr : ConfigCrashRecovery)
    (restarts code : Nat)
    (hcr : cfg.crashRecovery = some cr) (hauto : cr.autoRestart = some true) :
    (code ≠ 0 → restarts < cr.maxRestarts.getD 2 →
      gracefulExit cfg restarts code
        = ExitAction.scheduleRestart (cr.backoffBaseMs.getD 2000 * (restarts + 1))) ∧
    (cr.maxRestarts.getD 2 ≤ restarts →
      gracefulExit cfg restarts code = ExitAction.exitProcess code) := by
  unfold gracefulExit
  rw [hcr]
  simp only [hauto, Option.getD_some, Bool.true_and]
  constructor
  · intro hc hlt
    simp [hc, hlt]
  · intro hge
    by_cases hc : code = 0
    · simp [hc]
    · simp [hc, Nat.not_lt.mpr hge]

/-- C7 witness: base delay 2000 times attempt 1 on the first crash, and a
plain exit once two restarts were already performed. -/
theorem c7_witness :
    gracefulExit autoCrCfg 0 1 = ExitAction.scheduleRestart 2000 ∧
    gracefulExit autoCrCfg 2 1 = ExitAction.exitProcess 1 := by
  exact ⟨(c7_gracefulExit_linear_backoff autoCrCfg autoCr 0 1 rfl rfl).1
           (by decide) (by decide),
         (c7_gracefulExit_linear_backoff autoCrCfg autoCr 2 1 rfl rfl).2
           (by decide)⟩

/-- C3 amended: in parallel mode, whenever both flows succeed with nonzero
initialPoints readings, initialTotal is the minimum of the two readings
and endTotal adds both collected amounts on top of it; a zero reading is
treated like a missing flow result (coerced to Infinity) and excluded from
the minimum. -/
theorem c3_parallel_initialTotal_min (cfg : Config) (detect : BanClassifier)
    (em : String) (dur dInit dColl mInit mColl : Nat) (comp : Bool)
    (hpar : cfg.parallel = true) (hdry : cfg.dryRun.getD false = false)
    (hd : dInit ≠ 0) (hm : mInit ≠ 0) :
    (runAccount cfg detect em dur (Except.ok ⟨dInit, dColl⟩)
        (Except.ok ⟨mInit, mColl⟩) comp).summary.initialTotal
      = JsNumber.num (Nat.min dInit mInit) ∧
    (runAccount cfg detect em dur (Except.ok ⟨dInit, dColl⟩)
        (Except.ok ⟨mInit, mColl⟩) comp).summary.endTotal
      = JsNumber.num (Nat.min dInit mInit + (dColl + mColl)) := by
  simp [runAccount, finishSummary, jsOrInf, jsMin, jsAdd, hpar, hdry, hd, hm]

/-- C3 amended witness: desktop reading 100, mobile reading 95 give
initialTotal 95 and endTotal 95 plus the 15 collected points. -/
theorem c3_witness :
    (runAccount parCfg testDetect "a@x" 1000 (Except.ok ⟨100, 10⟩)
        (Except.ok ⟨95, 5⟩) false).summary.initialTotal
      = JsNumber.num (Nat.min 100 95) ∧
    (runAccount parCfg testDetect "a@x" 1000 (Except.ok ⟨100, 10⟩)
        (Except.ok ⟨95, 5⟩) false).summary.endTotal
      = JsNumber.num (Nat.min 100 95 + (10 + 5)) := by
  exact c3_parallel_initialTotal_min parCfg testDetect "a@x" 1000 100 10 95 5
    false rfl rfl (by decide) (by decide)

/-- C8: a flow exception is always caught and recorded as an error string
in the account summary (runAccount is total, so nothing propagates out of
the loop); in parallel mode each failure is caught independently, so a
desktop failure leaves the mobile result counted and vice versa, and in
sequential mode a mobile failure after a clean desktop run is likewise
recorded. -/
theorem c8_flow_errors_recorded (cfg : Config) (detect : BanClassifier)
    (em : String) (dur : Nat) (dr mr : FlowRun) (comp : Bool)
    (hdry : cfg.dryRun.getD false = false) :
    (∀ e, dr = Except.error e →
      formatFullError "desktop" e
        ∈ (runAccount cfg detect em dur dr mr comp).summary.errors) ∧
    (cfg.parallel = true → ∀ e, mr = Except.error e →
      formatFullError "mobile" e
        ∈ (runAccount cfg detect em dur dr mr comp).summary.errors) ∧
    (cfg.parallel = true → ∀ e r, dr = Except.error e → mr = Except.ok r →
      (runAccount cfg detect em dur dr mr comp).summary.mobileCollected
        = r.collectedPoints) ∧
    (cfg.parallel = true → ∀ e r, mr = Except.error e → dr = Except.ok r →
      (runAccount cfg detect em dur dr mr comp).summary.desktopCollected
        = r.collectedPoints) ∧
    (cfg.parallel = false → ∀ r e2, dr = Except.ok r → comp = false →
      mr = Except.error e2 →
      formatFullError "mobile" e2
        ∈ (runAccount cfg detect em dur dr mr comp).summary.errors) := by
  refine ⟨?_, ?_, ?_, ?_, ?_⟩
  · intro e he
    subst he
    cases hp : cfg.parallel
    · cases mr with
      | error e2 =>
        simp [runAccount, hdry, hp, finishSummary, recordFlowFailure]
        split_ifs <;> simp
      | ok r =>
        simp [runAccount, hdry, hp, finishSummary, recordFlowFailure]
        split_ifs <;> simp
    · cases mr with
      | error e2 =>
        simp [runAccount, hdry, hp, finishSummary, recordFlowFailure]
      | ok r =>
        simp [runAccount, hdry, hp, finishSummary, recordFlowFailure]
  · intro hp e he
    subst he
    cases dr with
    | error e2 => simp [runAccount, hdry, hp, finishSummary, recordFlowFailure]
    | ok r => simp [runAccount, hdry, hp, finishSummary, recordFlowFailure]
  · intro hp e r he hm
    subst he; subst hm
    simp [runAccount, hdry, hp, finishSummary, recordFlowFailure]
  · intro hp e r hm hd
    subst hm; subst hd
    simp [runAccount, hdry, hp, finishSummary, recordFlowFailure]
  · intro hp r e2 hd hcomp hm
    subst hd; subst hm; subst hcomp
    simp [runAccount, hdry, hp, finishSummary, recordFlowFailure]

/-- C8 witness: in parallel mode with a failing desktop flow and a
successful mobile flow, the desktop error string is in the summary and the
mobile points survive; sequentially a failing mobile flow after a clean
desktop run is recorded too. -/
theorem c8_witness :
    formatFullError "desktop" exErr
      ∈ (runAccount parCfg testDetect "a@x" 5 (Except.error exErr)
          (Except.ok ⟨95, 5⟩) false).summary.errors ∧
    (runAccount parCfg testDetect "a@x" 5 (Except.error exErr)
        (Except.ok ⟨95, 5⟩) false).summary.mobileCollected = 5 ∧
    formatFullError "mobile" exErr
      ∈ (runAccount seqCfg testDetect "a@x" 5 (Except.ok ⟨100, 10⟩)
          (Except.error exErr) false).summary.errors := by
  refine ⟨?_, ?_, ?_⟩
  · exact (c8_flow_errors_recorded parCfg testDetect "a@x" 5
      (Except.error exErr) (Except.ok ⟨95, 5⟩) false rfl).1 exErr rfl
  · exact (c8_flow_errors_recorded parCfg testDetect "a@x" 5
      (Except.error exErr) (Except.ok ⟨95, 5⟩) false rfl).2.2.1 rfl exErr
      ⟨95, 5⟩ rfl rfl
  · exact (c8_flow_errors_recorded seqCfg testDetect "a@x" 5
      (Except.ok ⟨100, 10⟩) (Except.error exErr) false rfl).2.2.2.2 rfl
      ⟨100, 10⟩ exErr rfl rfl rfl

/-- C1 amended: with two accounts, one cluster, sequential mode and any
stopOnBan setting, a ban-classified desktop error on the first account
means its mobile flow is not invoked and its summary has banned.status
true — but the ban then activates the global standby flag, so the loop
halts before the second account: the run records exactly one desktop
invocation and one summary, and ends with standby active. -/
theorem c1_seq_ban_halts_loop (cfg : Config) (detect : BanClassifier)
    (env : FlowEnv) (osEnv : Option String) (runId day : String)
    (a1 a2 : String) (e : JsError) (reason : String)
    (hpar : cfg.parallel = false) (hdry : cfg.dryRun.getD false = false)
    (hdesk : env.desktopRun a1 = Except.error e)
    (hdet : detect e = ⟨true, reason⟩) :
    (runTasks cfg detect env osEnv runId day false [⟨a1⟩, ⟨a2⟩]
        emptyLoopState 1 1).invocations = [(a1, FlowKind.desktop)] ∧
    (runTasks cfg detect env osEnv runId day false [⟨a1⟩, ⟨a2⟩]
        emptyLoopState 1 1).summaries.map (fun s => (s.email, s.banned.status))
      = [(a1, true)] ∧
    (runTasks cfg detect env osEnv runId day false [⟨a1⟩, ⟨a2⟩]
        emptyLoopState 1 1).globalStandby.active = true := by
  have hs : ∀ x, shouldSkipAccount cfg (some ⟨[]⟩) osEnv x day = false :=
    fun x => shouldSkip_emptyStore cfg osEnv x day
  have hrun : runTasks cfg detect env osEnv runId day false [⟨a1⟩, ⟨a2⟩]
      emptyLoopState 1 1
      = runTasksLoop cfg detect env osEnv runId day [⟨a1⟩, ⟨a2⟩] emptyLoopState := by
    simp [runTasks, emptyLoopState, hs]
  rw [hrun]
  simp [runTasksLoop, hs, runAccount, hpar, hdry, hdesk, hdet,
    recordFlowFailure, finishSummary, persistAccountCompletion,
    Config.stopOnBanFlag, emptyLoopState]

/-- C1 amended witness: the concrete two-account scenario run c1Run. -/
theorem c1_witness :
    c1Run.invocations = [( "one@x", FlowKind.desktop )] ∧
    c1Run.summaries.map (fun s => (s.email, s.banned.status))
      = [( "one@x", true )] ∧
    c1Run.globalStandby.active = true := by
  exact c1_seq_ban_halts_loop seqCfg testDetect banEnv none "run1"
    "2026-10-12" "one@x" "two@x" ⟨ "Account suspended", some "suspended" ⟩
    "suspended" rfl rfl rfl rfl

/-- Outside dry-run mode the desktop flow is always the first invoked flow
of an account run. -/
theorem runAccount_first_invoked (cfg : Config) (detect : BanClassifier)
    (em : String) (dur : Nat) (dr mr : FlowRun) (comp : Bool)
    (hdry : cfg.dryRun.getD false = false) :
    ∃ t, (runAccount cfg detect em dur dr mr comp).invoked
          = FlowKind.desktop :: t := by
  cases hp : cfg.parallel
  · cases dr with
    | error e =>
      simp [runAccount, hdry, hp, finishSummary, recordFlowFailure]
      split_ifs <;> simp
    | ok r =>
      simp [runAccount, hdry, hp, finishSummary, recordFlowFailure]
      split_ifs <;> simp
  · simp [runAccount, hdry, hp, finishSummary, recordFlowFailure]

/-- C4: with a job store present, the skip check answers true exactly when
skip is not disabled, at most one pass is configured, the environment
override is off and a completion record exists; more than one pass or an
enabling override forces it to false; a skipped account leaves the loop
state untouched (no flow invoked), and a non-skipped account has its
desktop flow invoked. -/
theorem c4_skip_property (cfg : Config) (stJ : JobStore)
    (osEnv : Option String) (em day : String) (detect : BanClassifier)
    (env : FlowEnv) (runId : String) (st0 : LoopState) :
    ((cfg.jobState.bind fun j => j.skipCompletedAccounts) ≠ some false →
      cfg.passesPerRun.getD 1 ≤ 1 → isAccountSkipOverride osEnv = false →
      stJ.isAccountComplete em day = true →
      shouldSkipAccount cfg (some stJ) osEnv em day = true) ∧
    (1 < cfg.passesPerRun.getD 1 →
      shouldSkipAccount cfg (some stJ) osEnv em day = false) ∧
    (isAccountSkipOverride osEnv = true →
      shouldSkipAccount cfg (some stJ) osEnv em day = false) ∧
    (st0.globalStandby.active = false → st0.bannedTriggered = none →
      shouldSkipAccount cfg st0.store osEnv em day = true →
      runTasksLoop cfg detect env osEnv runId day [⟨em⟩] st0 = st0) ∧
    (st0.globalStandby.active = false → st0.bannedTriggered = none →
      shouldSkipAccount cfg st0.store osEnv em day = false →
      cfg.dryRun.getD false = false →
      ∃ t, (runTasksLoop cfg detect env osEnv runId day [⟨em⟩] st0).invocations
            = st0.invocations ++ (em, FlowKind.desktop) :: t) := by
  refine ⟨?_, ?_, ?_, ?_, ?_⟩
  · exact shouldSkip_of_complete cfg stJ osEnv em day
  · intro hp
    simp only [shouldSkipAccount]
    split_ifs <;> rfl
  · intro hov
    simp only [shouldSkipAccount]
    split_ifs <;> simp_all
  · intro h1 h2 h3
    simp [runTasksLoop, h1, h2, h3]
  · intro h1 h2 h3 hdry
    obtain ⟨t, ht⟩ := runAccount_first_invoked cfg detect em
      (env.durationMs em) (env.desktopRun em) (env.mobileRun em)
      (env.compromisedAfterDesktop em) hdry
    refine ⟨t.map (fun k => (em, k)), ?_⟩
    simp [runTasksLoop, h1, h2, h3, ht]

/-- C4 witness: a completed account is skipped under defaults, and runs
again with passesPerRun 2 or REWARDS_DISABLE_ACCOUNT_SKIP set to 1. -/
theorem c4_witness :
    shouldSkipAccount seqCfg (some storeDone) none "a@x" "2026-10-12" = true ∧
    shouldSkipAccount cfgPasses2 (some storeDone) none "a@x" "2026-10-12" = false ∧
    shouldSkipAccount seqCfg (some storeDone) (some "1") "a@x" "2026-10-12" = false := by
  refine ⟨?_, ?_, ?_⟩
  · exact (c4_skip_property seqCfg storeDone none "a@x" "2026-10-12"
      testDetect okEnv "run1" emptyLoopState).1 (by decide) (by decide)
      (by decide) (by decide)
  · exact (c4_skip_property cfgPasses2 storeDone none "a@x" "2026-10-12"
      testDetect okEnv "run1" emptyLoopState).2.1 (by decide)
  · exact (c4_skip_property seqCfg storeDone (some "1") "a@x" "2026-10-12"
      testDetect okEnv "run1" emptyLoopState).2.2.1 (by decide)

/-- The summary the dry-run branch appends: zero duration, zero points in
every field, empty error list, clean ban flag. -/
def dryRunSummary (email : String) : AccountSummary :=
  ⟨email, 0, 0, 0, 0, JsNumber.num 0, JsNumber.num 0, [], ⟨false, ""⟩⟩

/-- C9: under dryRun with job state present and the usual persist guards
passing, a one-account run invokes no flow, appends exactly the all-zero
summary, and persists the account as complete exactly as a real run would,
so the skip check of a later run under default-style settings answers
true. -/
theorem c9_dryRun_skips_flows_and_persists (cfg cfg2 : Config)
    (detect : BanClassifier) (env : FlowEnv) (osEnv osEnv2 : Option String)
    (runId day : String) (a : Account) (stJ : JobStore)
    (hdry : cfg.dryRun = some true)
    (hskip : shouldSkipAccount cfg (some stJ) osEnv a.email day = false)
    (hjsA : (cfg.jobState.bind fun j => j.skipCompletedAccounts) ≠ some false)
    (hpassA : cfg.passesPerRun.getD 1 ≤ 1)
    (hovA : isAccountSkipOverride osEnv = false)
    (hjs2 : (cfg2.jobState.bind fun j => j.skipCompletedAccounts) ≠ some false)
    (hpass2 : cfg2.passesPerRun.getD 1 ≤ 1)
    (hov2 : isAccountSkipOverride osEnv2 = false) :
    (runTasks cfg detect env osEnv runId day false [a]
        ⟨⟨false, none⟩, none, [], some stJ, []⟩ 1 1).invocations = [] ∧
    (runTasks cfg detect env osEnv runId day false [a]
        ⟨⟨false, none⟩, none, [], some stJ, []⟩ 1 1).summaries
      = [dryRunSummary a.email] ∧
    shouldSkipAccount cfg2
      (runTasks cfg detect env osEnv runId day false [a]
        ⟨⟨false, none⟩, none, [], some stJ, []⟩ 1 1).store
      osEnv2 a.email day = true := by
  have hd : cfg.dryRun.getD false = true := by rw [hdry]; rfl
  have hrun : runTasks cfg detect env osEnv runId day false [a]
      ⟨⟨false, none⟩, none, [], some stJ, []⟩ 1 1
      = runTasksLoop cfg detect env osEnv runId day [a]
          ⟨⟨false, none⟩, none, [], some stJ, []⟩ := by
    simp [runTasks, hskip]
  have hpersist : persistAccountCompletion cfg (some stJ) osEnv runId a.email day
      ⟨a.email, 0, 0, 0, 0, JsNumber.num 0, JsNumber.num 0, [], ⟨false, ""⟩⟩
      = some (stJ.markAccountComplete a.email day ⟨runId, 0, false, 0⟩) := by
    simp only [persistAccountCompletion]
    rw [if_neg hjsA, if_neg (by omega), if_neg (by simp [hovA])]
    rfl
  have hloop : runTasksLoop cfg detect env osEnv runId day [a]
      ⟨⟨false, none⟩, none, [], some stJ, []⟩
      = ⟨⟨false, none⟩, none,
         [⟨a.email, 0, 0, 0, 0, JsNumber.num 0, JsNumber.num 0, [], ⟨false, ""⟩⟩],
         some (stJ.markAccountComplete a.email day ⟨runId, 0, false, 0⟩), []⟩ := by
    simp [runTasksLoop, runAccount, hd, hskip, hpersist]
  rw [hrun, hloop]
  refine ⟨rfl, rfl, ?_⟩
  exact shouldSkip_of_complete cfg2 _ osEnv2 a.email day hjs2 hpass2 hov2
    (JobStore.mark_isComplete stJ a.email day ⟨runId, 0, false, 0⟩)

/-- C9 witness: a concrete dry run over one account with an empty store. -/
theorem c9_witness :
    (runTasks dryCfg testDetect okEnv none "run1" "2026-10-12" false
        [⟨ "a@x" ⟩] ⟨⟨false, none⟩, none, [], some ⟨[]⟩, []⟩ 1 1).invocations
      = [] ∧
    (runTasks dryCfg testDetect okEnv none "run1" "2026-10-12" false
        [⟨ "a@x" ⟩] ⟨⟨false, none⟩, none, [], some ⟨[]⟩, []⟩ 1 1).summaries
      = [dryRunSummary "a@x"] ∧
    shouldSkipAccount seqCfg
      (runTasks dryCfg testDetect okEnv none "run1" "2026-10-12" false
        [⟨ "a@x" ⟩] ⟨⟨false, none⟩, none, [], some ⟨[]⟩, []⟩ 1 1).store
      none "a@x" "2026-10-12" = true := by
  exact c9_dryRun_skips_flows_and_persists dryCfg seqCfg testDetect okEnv
    none none "run1" "2026-10-12" ⟨ "a@x" ⟩ ⟨[]⟩ rfl (by decide) (by decide)
    (by decide) (by decide) (by decide) (by decide) (by decide)
